import Mathlib

/-!
Verification of the snippet-browser core of `builder.py`: the nested
snippet catalog (`SNIPPETS`), the recursive menu renderer (`print_menu`),
the dotted-path resolver (`get_nested`) and the relevant slice of the
interactive session loop (`main`).

Python values reachable in the catalog are either strings (snippet
payloads) or dicts (categories); dicts preserve insertion order, so they
are modelled as association lists.
-/

/-- A Python value stored in the snippet catalog: either a snippet payload
string or an (insertion-ordered) dict from display names to child values. -/
inductive PyVal where
  | str : String → PyVal
  | dict : List (String × PyVal) → PyVal

/-- The Python exceptions the modelled code can raise:
`IndexError` from `list(...)[idx]`, `KeyError` from `current[part]` on a
dict, `TypeError` from `current[part]` when `current` is a string, and
`AttributeError` from calling a missing method (`.values()` on a string in
`get_nested`, `.strip()` on a dict in `main`). -/
inductive PyErr where
  | indexError
  | keyError
  | typeError
  | attributeError
deriving DecidableEq

/-- The spec's resolution-error taxonomy. -/
inductive ResolutionError where
  | NotContainer
  | IndexOutOfRange
  | NameNotFound
deriving DecidableEq

/-- How the spec's `ResolutionError` kinds map onto the Python exceptions
actually raised inside `get_nested`: a bad numeric index raises
`IndexError`, a bad name raises `KeyError`, and descending into a string
raises `TypeError` (name segment) or `AttributeError` (numeric segment). -/
def resErrOf : PyErr → ResolutionError
  | PyErr.indexError => ResolutionError.IndexOutOfRange
  | PyErr.keyError => ResolutionError.NameNotFound
  | PyErr.typeError => ResolutionError.NotContainer
  | PyErr.attributeError => ResolutionError.NotContainer

/-- Python whitespace test used by `str.strip()`. -/
def pyWhitespace (c : Char) : Bool := c.isWhitespace

/-- Python `str.strip()`: remove leading and trailing whitespace. -/
def pyStrip (s : String) : String :=
  String.mk (((s.data.dropWhile pyWhitespace).reverse.dropWhile pyWhitespace).reverse)

/-- Python `str.lower()`: lowercase each character. -/
def pyLower (s : String) : String := String.mk (s.data.map Char.toLower)

/-- Helper for `pySplitDot`: accumulate the current (reversed) segment,
emitting it at each separator and at the end of the string. -/
def pySplitDotAux : List Char → List Char → List String
  | acc, [] => [String.mk acc.reverse]
  | acc, c :: cs =>
      if c = '.' then String.mk acc.reverse :: pySplitDotAux [] cs
      else pySplitDotAux (c :: acc) cs

/-- Python `path.split(".")`: split on every dot, keeping empty segments;
the empty string yields `[""]`. -/
def pySplitDot (s : String) : List String := pySplitDotAux [] s.data

/-- Python `int(part)` on a string of decimal digits. -/
def pyIntOfDigits (s : String) : Nat :=
  s.data.foldl (fun a c => a * 10 + (c.toNat - 48)) 0

/-- Python `str.isdigit()` restricted to decimal digits: true iff the
string is nonempty and every character is a digit. -/
def pyIsdigit (s : String) : Bool := !s.isEmpty && s.data.all Char.isDigit

/-- Python list indexing `xs[i]`: a negative index counts from the end;
out-of-range access returns `none` (an `IndexError`). -/
def pyIndex {α : Type} (xs : List α) (i : Int) : Option α :=
  let j : Int := if i < 0 then i + xs.length else i
  if 0 ≤ j ∧ j < (xs.length : Int) then xs[j.toNat]? else none

/-- One iteration of the loop body of `get_nested`
(`builder.py`, lines 211-216): a digit segment is a 1-based position into
`list(current.values())` (Python indexing, so `int(part) - 1` may be `-1`);
any other segment is a dict key lookup `current[part]`. Descending into a
string raises `AttributeError` (no `.values()`) or `TypeError`
(string indexed by a string). -/
def get_nestedStep (current : PyVal) (part : String) : Except PyErr PyVal :=
  if pyIsdigit part then
    match current with
    | PyVal.dict entries =>
        match pyIndex (entries.map Prod.snd) ((pyIntOfDigits part : Int) - 1) with
        | some v => Except.ok v
        | none => Except.error PyErr.indexError
    | PyVal.str _ => Except.error PyErr.attributeError
  else
    match current with
    | PyVal.dict entries =>
        match entries.lookup part with
        | some v => Except.ok v
        | none => Except.error PyErr.keyError
    | PyVal.str _ => Except.error PyErr.typeError

/-- The loop of `get_nested` over the already-split path segments; the
first raised exception aborts the walk. -/
def get_nestedSegs : PyVal → List String → Except PyErr PyVal
  | current, [] => Except.ok current
  | current, part :: rest =>
      match get_nestedStep current part with
      | Except.ok next => get_nestedSegs next rest
      | Except.error e => Except.error e

/-- `get_nested(d, path)` from `builder.py` (lines 209-217): split the path
on `"."` and walk the catalog segment by segment. -/
def get_nested (d : PyVal) (path : String) : Except PyErr PyVal :=
  get_nestedSegs d (pySplitDot path)

/-- The indentation `'  ' * level` used by `print_menu`. -/
def menuIndent : Nat → String
  | 0 => ""
  | n + 1 => "  " ++ menuIndent n

/-- `print_menu(d, level, prefix)` from `builder.py` (lines 200-206),
generalised over the 1-based position `i` of the first remaining child
(the source starts `enumerate` at 1): each dict child emits
`"<indent><pre><i>) <name>/"` and recurses with `level+1` and
`pre + "<i>."`; each string child emits the same line without the slash. -/
def print_menuFrom : Nat → Nat → String → List (String × PyVal) → List String
  | _, _, _, [] => []
  | i, level, pre, (k, PyVal.str _) :: rest =>
      (menuIndent level ++ pre ++ toString i ++ ") " ++ k) ::
        print_menuFrom (i + 1) level pre rest
  | i, level, pre, (k, PyVal.dict sub) :: rest =>
      (menuIndent level ++ pre ++ toString i ++ ") " ++ k ++ "/") ::
        (print_menuFrom 1 (level + 1) (pre ++ toString i ++ ".") sub ++
          print_menuFrom (i + 1) level pre rest)

/-- The lines `print_menu` emits for the single child `(k, v)` shown with
position number `i`: its own numbered line, followed (for a dict child) by
the recursive rendering of the child. -/
def entryBlock (level : Nat) (pre : String) (i : Nat) (k : String) (v : PyVal) : List String :=
  match v with
  | PyVal.str _ => [menuIndent level ++ pre ++ toString i ++ ") " ++ k]
  | PyVal.dict sub =>
      (menuIndent level ++ pre ++ toString i ++ ") " ++ k ++ "/") ::
        print_menuFrom 1 (level + 1) (pre ++ toString i ++ ".") sub

/-- `print_menu(d)` as called from `main`: top level, empty path. -/
def print_menuLines (d : List (String × PyVal)) : List String :=
  print_menuFrom 1 0 "" d

/-- The quit tokens checked by `main` (`builder.py`, line 228). -/
def quitTokens : List String := ["q", "quit", "exit", ""]

/-- Outcome of one selection in the session loop of `main`. -/
inductive StepOutcome where
  | quit
  | invalidSelection
  | displayed : String → StepOutcome
  | crashed : PyErr → StepOutcome
deriving DecidableEq

/-- One pass of the session loop of `main` (`builder.py`, lines 226-241)
from reading a choice up to displaying the selected snippet: the raw input
line is stripped; a quit token ends the session; a `get_nested` exception
is caught and reported as an invalid selection; a string result is
displayed via `print(code.strip())`; a dict result reaches
`code.strip()` too, which raises an uncaught `AttributeError`
(`dict` has no `strip`), crashing the program. -/
def sessionStep (catalog : PyVal) (raw : String) : StepOutcome :=
  let choice := pyStrip raw
  if quitTokens.contains (pyLower choice) then StepOutcome.quit
  else
    match get_nested catalog choice with
    | Except.error _ => StepOutcome.invalidSelection
    | Except.ok (PyVal.str s) => StepOutcome.displayed (pyStrip s)
    | Except.ok (PyVal.dict _) => StepOutcome.crashed PyErr.attributeError

/-- The clipboard branch of `main` (`builder.py`, lines 243-249): unless
the stripped, lowercased answer is `"n"` or `"no"`, and provided
`pyperclip` is importable, `pyperclip.copy(code.strip())` is offered the
stripped snippet text. -/
def clipboardOffer (answer : String) (pyperclipAvailable : Bool) (code : String) :
    Option String :=
  if ["n", "no"].contains (pyLower (pyStrip answer)) then none
  else if pyperclipAvailable then some (pyStrip code) else none

/-- The catalog invariants of the spec that name-based resolution relies
on, checked recursively: no display name is a digit-only string (it would
be parsed as a position) and sibling display names are unique. -/
def goodEntries : List (String × PyVal) → Bool
  | [] => true
  | (k, PyVal.str _) :: rest =>
      !pyIsdigit k && !((rest.map Prod.fst).contains k) && goodEntries rest
  | (k, PyVal.dict sub) :: rest =>
      !pyIsdigit k && !((rest.map Prod.fst).contains k) &&
        goodEntries sub && goodEntries rest

/-- The catalog invariants lifted to a single value: a payload string is
always fine, a dict must satisfy `goodEntries`. -/
def goodVal : PyVal → Bool
  | PyVal.str _ => true
  | PyVal.dict es => goodEntries es

/-- Shape equality of two entry lists: same display names, same
interior/leaf structure, arbitrary leaf payloads. The renderer's output is
a function of this shape only. -/
def shapeEqEntries : List (String × PyVal) → List (String × PyVal) → Bool
  | [], [] => true
  | (k₁, PyVal.str _) :: r₁, (k₂, PyVal.str _) :: r₂ =>
      k₁ == k₂ && shapeEqEntries r₁ r₂
  | (k₁, PyVal.dict s₁) :: r₁, (k₂, PyVal.dict s₂) :: r₂ =>
      k₁ == k₂ && shapeEqEntries s₁ s₂ && shapeEqEntries r₁ r₂
  | _, _ => false

/-- The loop of `get_nested` with the caller's catalog threaded through
explicitly as state: the source loop only rebinds the local `current` and
never assigns into the catalog, so every iteration passes the catalog
state along unchanged. -/
def resolveLoop (cat : PyVal) (current : PyVal) : List String → PyVal × Except PyErr PyVal
  | [] => (cat, Except.ok current)
  | part :: rest =>
      match get_nestedStep current part with
      | Except.ok next => resolveLoop cat next rest
      | Except.error e => (cat, Except.error e)

/-- `get_nested` in explicit state-passing form: the pair of the catalog
after the call and the call's result. -/
def resolveST (cat : PyVal) (path : String) : PyVal × Except PyErr PyVal :=
  resolveLoop cat cat (pySplitDot path)

/-- `SubNode t v`: `t` is a node of the tree rooted at `v` (either `v`
itself or a node inside one of its dict entries). -/
inductive SubNode : PyVal → PyVal → Prop where
  | refl (v : PyVal) : SubNode v v
  | child {es : List (String × PyVal)} {k : String} {v t : PyVal} :
      (k, v) ∈ es → SubNode t v → SubNode t (PyVal.dict es)

/-- `ReachAt root idxs names t`: from `root`, following the children at
0-based insertion positions `idxs` (recorded 1-based, as `i+1`) whose
display names are `names`, reaches the node `t`. -/
inductive ReachAt : PyVal → List Nat → List String → PyVal → Prop where
  | refl (v : PyVal) : ReachAt v [] [] v
  | step {es : List (String × PyVal)} {i : Nat} {k : String} {v t : PyVal}
      {idxs : List Nat} {names : List String} :
      es[i]? = some (k, v) → ReachAt v idxs names t →
      ReachAt (PyVal.dict es) ((i + 1) :: idxs) (k :: names) t

/-! The `SNIPPETS` catalog of `builder.py` (lines 9-193). Each leaf payload
below is the result of the source's `dedent("""\...""")` call: the common
12-space indentation is removed and the whitespace-only final line is
normalised, so every payload ends in a single newline. -/

def payload_basic_argparse_usage : String :=
  "import argparse\n" ++
  "\n" ++
  "parser = argparse.ArgumentParser(\n" ++
  "    description=\"Simple script with arguments\"\n" ++
  ")\n" ++
  "parser.add_argument(\"input_file\", help=\"Path to the input file\")\n" ++
  "parser.add_argument(\"-o\", \"--output\", default=\"result.txt\",\n" ++
  "                    help=\"Output file name (default: result.txt)\")\n" ++
  "parser.add_argument(\"-v\", \"--verbose\", action=\"store_true\",\n" ++
  "                    help=\"Increase output verbosity\")\n" ++
  "\n" ++
  "args = parser.parse_args()\n" ++
  "\n" ++
  "print(f\"Input  : \x7bargs.input_file\x7d\")\n" ++
  "print(f\"Output : \x7bargs.output\x7d\")\n" ++
  "print(f\"Verbose: \x7bargs.verbose\x7d\")\n"

def payload_argparse_with_subcommands : String :=
  "import argparse\n" ++
  "\n" ++
  "def process(args):\n" ++
  "    print(f\"Processing \x7bargs.file\x7d ...\")\n" ++
  "\n" ++
  "def convert(args):\n" ++
  "    print(f\"Converting \x7bargs.source\x7d → \x7bargs.target\x7d\")\n" ++
  "\n" ++
  "parser = argparse.ArgumentParser()\n" ++
  "subparsers = parser.add_subparsers(dest=\"command\", required=True)\n" ++
  "\n" ++
  "p1 = subparsers.add_parser(\"process\")\n" ++
  "p1.add_argument(\"file\")\n" ++
  "p1.set_defaults(func=process)\n" ++
  "\n" ++
  "p2 = subparsers.add_parser(\"convert\")\n" ++
  "p2.add_argument(\"source\")\n" ++
  "p2.add_argument(\"target\")\n" ++
  "p2.set_defaults(func=convert)\n" ++
  "\n" ++
  "args = parser.parse_args()\n" ++
  "args.func(args)\n"

def payload_minimal_Flask_application : String :=
  "from flask import Flask\n" ++
  "\n" ++
  "app = Flask(__name__)\n" ++
  "\n" ++
  "@app.route(\"/\")\n" ++
  "def home():\n" ++
  "    return \"<h1>Hello from Flask!</h1>\"\n" ++
  "\n" ++
  "@app.route(\"/hello/<name>\")\n" ++
  "def hello(name):\n" ++
  "    return f\"<h2>Hello, \x7bname\x7d!</h2>\"\n" ++
  "\n" ++
  "if __name__ == \"__main__\":\n" ++
  "    app.run(host=\"0.0.0.0\", port=5000, debug=True)\n"

def payload_Flask_with_templates_recommended : String :=
  "# File: app.py\n" ++
  "from flask import Flask, render_template\n" ++
  "\n" ++
  "app = Flask(__name__)\n" ++
  "\n" ++
  "@app.route(\"/\")\n" ++
  "def index():\n" ++
  "    return render_template(\"index.html\", title=\"Welcome\")\n" ++
  "\n" ++
  "if __name__ == \"__main__\":\n" ++
  "    app.run(debug=True)\n" ++
  "\n" ++
  "# File: templates/index.html\n" ++
  "<!doctype html>\n" ++
  "<html>\n" ++
  "<head><title>\x7b\x7b title \x7d\x7d</title></head>\n" ++
  "<body>\n" ++
  "  <h1>Hello from Flask</h1>\n" ++
  "  <p>Using Jinja2 templates is recommended.</p>\n" ++
  "</body>\n" ++
  "</html>\n"

def payload_serve_static_files_css_js_images : String :=
  "# Place files in the \"static\" folder next to app.py\n" ++
  "\n" ++
  "from flask import Flask, send_from_directory\n" ++
  "\n" ++
  "app = Flask(__name__, static_folder=\"static\")\n" ++
  "\n" ++
  "# Optional: custom static route\n" ++
  "@app.route(\"/assets/<path:filename>\")\n" ++
  "def custom_static(filename):\n" ++
  "    return send_from_directory(\"static\", filename)\n" ++
  "\n" ++
  "# Normal usage (recommended):\n" ++
  "# <link rel=\"stylesheet\" href=\"/static/style.css\">\n" ++
  "# <img src=\"/static/logo.png\">\n"

def payload_basic_file_upload_endpoint : String :=
  "from flask import Flask, request, redirect, url_for\n" ++
  "from werkzeug.utils import secure_filename\n" ++
  "import os\n" ++
  "\n" ++
  "app = Flask(__name__)\n" ++
  "UPLOAD_FOLDER = \"uploads\"\n" ++
  "ALLOWED_EXTENSIONS = \x7b\"txt\", \"pdf\", \"png\", \"jpg\", \"jpeg\", \"gif\"\x7d\n" ++
  "\n" ++
  "app.config[\"UPLOAD_FOLDER\"] = UPLOAD_FOLDER\n" ++
  "os.makedirs(UPLOAD_FOLDER, exist_ok=True)\n" ++
  "\n" ++
  "def allowed_file(filename):\n" ++
  "    return \".\" in filename and \\\n" ++
  "           filename.rsplit(\".\", 1)[1].lower() in ALLOWED_EXTENSIONS\n" ++
  "\n" ++
  "@app.route(\"/\", methods=[\"GET\", \"POST\"])\n" ++
  "def upload_file():\n" ++
  "    if request.method == \"POST\":\n" ++
  "        if \"file\" not in request.files:\n" ++
  "            return \"No file part\", 400\n" ++
  "        file = request.files[\"file\"]\n" ++
  "        if file.filename == \"\":\n" ++
  "            return \"No selected file\", 400\n" ++
  "        if file and allowed_file(file.filename):\n" ++
  "            filename = secure_filename(file.filename)\n" ++
  "            file.save(os.path.join(app.config[\"UPLOAD_FOLDER\"], filename))\n" ++
  "            return f\"File \x27\x7bfilename\x7d\x27 uploaded successfully!\"\n" ++
  "        else:\n" ++
  "            return \"File type not allowed\", 400\n" ++
  "    return \x27\x27\x27\n" ++
  "    <!doctype html>\n" ++
  "    <title>Upload File</title>\n" ++
  "    <h1>Upload a file</h1>\n" ++
  "    <form method=post enctype=multipart/form-data>\n" ++
  "      <input type=file name=file>\n" ++
  "      <input type=submit value=Upload>\n" ++
  "    </form>\n" ++
  "    \x27\x27\x27\n" ++
  "\n" ++
  "if __name__ == \"__main__\":\n" ++
  "    app.run(debug=True)\n"

def payload_download_uploaded_file : String :=
  "from flask import Flask, send_from_directory, abort\n" ++
  "import os\n" ++
  "\n" ++
  "app = Flask(__name__)\n" ++
  "UPLOAD_FOLDER = \"uploads\"\n" ++
  "app.config[\"UPLOAD_FOLDER\"] = UPLOAD_FOLDER\n" ++
  "\n" ++
  "@app.route(\"/uploads/<filename>\")\n" ++
  "def uploaded_file(filename):\n" ++
  "    if os.path.exists(os.path.join(app.config[\"UPLOAD_FOLDER\"], filename)):\n" ++
  "        return send_from_directory(app.config[\"UPLOAD_FOLDER\"], filename)\n" ++
  "    else:\n" ++
  "        abort(404)\n" ++
  "\n" ++
  "# Example link: <a href=\"/uploads/report.pdf\">Download report</a>\n"

def snippetsEntries : List (String × PyVal) :=
  [
  ("Command Line Arguments", PyVal.dict [
    ("basic argparse usage", PyVal.str payload_basic_argparse_usage),
    ("argparse with subcommands", PyVal.str payload_argparse_with_subcommands)]),
  ("Flask – Basic Setup", PyVal.dict [
    ("minimal Flask application", PyVal.str payload_minimal_Flask_application),
    ("Flask with templates (recommended)", PyVal.str payload_Flask_with_templates_recommended)]),
  ("Flask – Static Files", PyVal.dict [
    ("serve static files (css/js/images)", PyVal.str payload_serve_static_files_css_js_images)]),
  ("Flask – File Upload", PyVal.dict [
    ("basic file upload endpoint", PyVal.str payload_basic_file_upload_endpoint)]),
  ("Flask – Download / Serve Uploaded Files", PyVal.dict [
    ("download uploaded file", PyVal.str payload_download_uploaded_file)]),
  ("HTTP / Requests", PyVal.dict []),
  ("Small Web Servers", PyVal.dict []),
  ("File & Data Handling", PyVal.dict []),
  ("Concurrency Basics", PyVal.dict [])]



def SNIPPETS : PyVal := PyVal.dict snippetsEntries
/-! Helper lemmas about the resolver. -/

/-- Splitting a segment walk at an append point. -/
theorem get_nestedSegs_append (xs ys : List String) (d : PyVal) :
    get_nestedSegs d (xs ++ ys) =
      match get_nestedSegs d xs with
      | Except.ok v => get_nestedSegs v ys
      | Except.error e => Except.error e := by
  induction xs generalizing d with
  | nil => rfl
  | cons p rest ih =>
      simp only [List.cons_append, get_nestedSegs]
      cases get_nestedStep d p with
      | ok next => exact ih next
      | error e => rfl

/-- The state-threaded loop returns the catalog unchanged and computes the
same result as the plain segment walk. -/
theorem resolveLoop_eq (segs : List String) (cat cur : PyVal) :
    resolveLoop cat cur segs = (cat, get_nestedSegs cur segs) := by
  induction segs generalizing cur with
  | nil => rfl
  | cons p rest ih =>
      simp only [resolveLoop, get_nestedSegs]
      cases get_nestedStep cur p with
      | ok next => exact ih next
      | error e => rfl

/-- Python indexing with an in-range nonnegative index is plain indexing. -/
theorem pyIndex_nonneg {α : Type} (xs : List α) (i : Nat) (h : i < xs.length) :
    pyIndex xs (i : Int) = xs[i]? := by
  simp only [pyIndex]
  have h1 : ¬((i : Int) < 0) := by omega
  rw [if_neg h1, if_pos (by omega)]
  simp

/-- A successful lookup finds a pair of the list. -/
theorem lookup_mem {β : Type} (es : List (String × β)) (k : String) (v : β)
    (h : es.lookup k = some v) : ∃ kk, (kk, v) ∈ es := by
  induction es with
  | nil => simp [List.lookup] at h
  | cons hd rest ih =>
      obtain ⟨k₀, v₀⟩ := hd
      rw [List.lookup_cons] at h
      by_cases hk : (k == k₀) = true
      · simp [hk] at h
        exact ⟨k₀, by simp [h]⟩
      · simp [hk] at h
        obtain ⟨kk, hkk⟩ := ih h
        exact ⟨kk, List.mem_cons_of_mem _ hkk⟩

/-- Unpacking `goodEntries` at the child in position `i`: its name is not
digit-only, looking its name up finds exactly it, and it satisfies the
invariants itself. -/
theorem goodEntries_get (es : List (String × PyVal)) (i : Nat) (k : String) (v : PyVal)
    (hg : goodEntries es = true) (h : es[i]? = some (k, v)) :
    pyIsdigit k = false ∧ es.lookup k = some v ∧ goodVal v = true := by
  induction es generalizing i with
  | nil => simp at h
  | cons hd rest ih =>
      obtain ⟨k₀, v₀⟩ := hd
      have hg' : pyIsdigit k₀ = false ∧ ((rest.map Prod.fst).contains k₀) = false ∧
          goodVal v₀ = true ∧ goodEntries rest = true := by
        cases v₀ <;> simp [goodEntries, goodVal] at hg ⊢ <;> tauto
      cases i with
      | zero =>
          have hkv : k₀ = k ∧ v₀ = v := by
            simpa [Prod.ext_iff] using h
          obtain ⟨rfl, rfl⟩ := hkv
          exact ⟨hg'.1, by simp, hg'.2.2.1⟩
      | succ n =>
          simp only [List.getElem?_cons_succ] at h
          obtain ⟨h1, h2, h3⟩ := ih n hg'.2.2.2 h
          have hkmem : k ∈ rest.map Prod.fst :=
            List.mem_map_of_mem Prod.fst (List.getElem?_mem h)
          have hne : (k == k₀) = false := by
            have hk : k ≠ k₀ := by
              intro e
              subst e
              have hcon := hg'.2.1
              simp [List.contains, hkmem] at hcon
            simpa using hk
          exact ⟨h1, by simp [List.lookup_cons, hne, h2], h3⟩

/-- Walking digit segments that denote the 1-based insertion positions of
a reachable node resolves to that node. -/
theorem reach_num (d : PyVal) (idxs : List Nat) (names : List String) (t : PyVal)
    (hr : ReachAt d idxs names t) (hg : goodVal d = true) (segs : List String)
    (hs : List.Forall₂ (fun s n => pyIsdigit s = true ∧ pyIntOfDigits s = n) segs idxs) :
    get_nestedSegs d segs = Except.ok t := by
  induction hr generalizing segs with
  | refl v =>
      cases hs
      rfl
  | step hget hrest ih =>
      rename_i es i k v t' idxs' names'
      cases hs with
      | cons hseg hsegs =>
          rename_i s segs'
          obtain ⟨hdig, hval⟩ := hseg
          have hlen : i < es.length := (List.getElem?_eq_some.mp hget).1
          have hgv := goodEntries_get es i k v (by simpa [goodVal] using hg) hget
          have hmap : (es.map Prod.snd)[i]? = some v := by
            simp [List.getElem?_map, hget]
          have hidx : ((pyIntOfDigits s : Int) - 1) = (i : Int) := by
            rw [hval]; omega
          simp only [get_nestedSegs, get_nestedStep, hdig, if_pos, hidx]
          rw [pyIndex_nonneg _ i (by simpa using hlen), hmap]
          exact ih hgv.2.2 segs' hsegs

/-- Walking the display names of a reachable node resolves to that node. -/
theorem reach_name (d : PyVal) (idxs : List Nat) (names : List String) (t : PyVal)
    (hr : ReachAt d idxs names t) (hg : goodVal d = true) :
    get_nestedSegs d names = Except.ok t := by
  induction hr with
  | refl v => rfl
  | step hget hrest ih =>
      rename_i es i k v t' idxs' names'
      have hgv := goodEntries_get es i k v (by simpa [goodVal] using hg) hget
      simp only [get_nestedSegs, get_nestedStep, hgv.1, Bool.false_eq_true, if_false,
        hgv.2.1]
      exact ih hgv.2.2

/-- A successful Python index hit is a member of the list. -/
theorem pyIndex_mem {α : Type} (xs : List α) (i : Int) (a : α)
    (h : pyIndex xs i = some a) : a ∈ xs := by
  simp only [pyIndex] at h
  split at h <;> split at h <;> first
    | exact List.getElem?_mem h
    | simp at h

/-- One resolution step lands on a node of the current subtree. -/
theorem get_nestedStep_sub (cur : PyVal) (part : String) (next : PyVal)
    (h : get_nestedStep cur part = Except.ok next) : SubNode next cur := by
  cases cur with
  | str s =>
      simp only [get_nestedStep] at h
      split at h <;> simp at h
  | dict es =>
      simp only [get_nestedStep] at h
      split at h
      · split at h
        · rename_i v hv
          have hmem : v ∈ es.map Prod.snd := pyIndex_mem _ _ _ hv
          obtain ⟨⟨kk, vv⟩, hin, hsnd⟩ := List.mem_map.mp hmem
          cases h
          cases hsnd
          exact SubNode.child hin (SubNode.refl _)
        · simp at h
      · split at h
        · rename_i v hv
          obtain ⟨kk, hin⟩ := lookup_mem es part v hv
          cases h
          exact SubNode.child hin (SubNode.refl _)
        · simp at h

/-- Subtree containment is transitive. -/
theorem subNode_trans (a b c : PyVal) (h1 : SubNode a b) (h2 : SubNode b c) :
    SubNode a c := by
  induction h2 with
  | refl v => exact h1
  | child hin _ ih => exact SubNode.child hin (ih h1)

/-- Any node successfully resolved by the segment walk is a node of the
catalog it started from. -/
theorem get_nestedSegs_sub (segs : List String) (d v : PyVal)
    (h : get_nestedSegs d segs = Except.ok v) : SubNode v d := by
  induction segs generalizing d with
  | nil =>
      cases h
      exact SubNode.refl _
  | cons p rest ih =>
      simp only [get_nestedSegs] at h
      cases hstep : get_nestedStep d p with
      | ok next =>
          rw [hstep] at h
          exact subNode_trans _ _ _ (ih next h) (get_nestedStep_sub d p next hstep)
      | error e => rw [hstep] at h; cases h

/-- The lines emitted for a cons cell are the head child's block followed
by the rendering of the remaining siblings at the next position. -/
theorem print_menuFrom_cons (i level : Nat) (pre : String) (k : String) (v : PyVal)
    (rest : List (String × PyVal)) :
    print_menuFrom i level pre ((k, v) :: rest) =
      entryBlock level pre i k v ++ print_menuFrom (i + 1) level pre rest := by
  cases v <;> simp [print_menuFrom, entryBlock]

/-- Rendering distributes over append, with the position counter advanced
by the number of children passed. -/
theorem print_menuFrom_append (xs ys : List (String × PyVal)) (i level : Nat) (pre : String) :
    print_menuFrom i level pre (xs ++ ys) =
      print_menuFrom i level pre xs ++ print_menuFrom (i + xs.length) level pre ys := by
  induction xs generalizing i with
  | nil => simp [print_menuFrom]
  | cons hd rest ih =>
      obtain ⟨k, v⟩ := hd
      rw [List.cons_append, print_menuFrom_cons, print_menuFrom_cons, ih (i + 1)]
      have harith : i + 1 + rest.length = i + (rest.length + 1) := by omega
      simp [harith, List.append_assoc]

/-- Rendering is the concatenation, child by child in insertion order with
1-based positions, of each child's block. -/
theorem print_menuFrom_enum (cs : List (String × PyVal)) (i level : Nat) (pre : String) :
    print_menuFrom i level pre cs =
      ((cs.enumFrom i).map fun e => entryBlock level pre e.1 e.2.1 e.2.2).flatten := by
  induction cs generalizing i with
  | nil => simp [print_menuFrom]
  | cons hd rest ih =>
      obtain ⟨k, v⟩ := hd
      rw [print_menuFrom_cons, List.enumFrom_cons, List.map_cons, List.flatten_cons,
        ih (i + 1)]

/-- Rendering depends only on the shape of the entries: display names and
interior/leaf structure, never the leaf payloads. -/
theorem shapeEq_render : ∀ (es₁ es₂ : List (String × PyVal)),
    shapeEqEntries es₁ es₂ = true → ∀ (i level : Nat) (pre : String),
    print_menuFrom i level pre es₁ = print_menuFrom i level pre es₂
  | [], [], _, _, _, _ => rfl
  | [], (_, _) :: _, h, _, _, _ => by simp [shapeEqEntries] at h
  | (_, _) :: _, [], h, _, _, _ => by simp [shapeEqEntries] at h
  | (k₁, PyVal.str _) :: r₁, (k₂, PyVal.dict _) :: r₂, h, _, _, _ => by
      simp [shapeEqEntries] at h
  | (k₁, PyVal.dict _) :: r₁, (k₂, PyVal.str _) :: r₂, h, _, _, _ => by
      simp [shapeEqEntries] at h
  | (k₁, PyVal.str s₁) :: r₁, (k₂, PyVal.str s₂) :: r₂, h, i, level, pre => by
      simp only [shapeEqEntries, Bool.and_eq_true, beq_iff_eq] at h
      obtain ⟨hk, hr⟩ := h
      subst hk
      rw [print_menuFrom_cons, print_menuFrom_cons, shapeEq_render r₁ r₂ hr (i + 1) level pre]
      simp [entryBlock]
  | (k₁, PyVal.dict s₁) :: r₁, (k₂, PyVal.dict s₂) :: r₂, h, i, level, pre => by
      simp only [shapeEqEntries, Bool.and_eq_true, beq_iff_eq] at h
      obtain ⟨⟨hk, hs⟩, hr⟩ := h
      subst hk
      rw [print_menuFrom_cons, print_menuFrom_cons]
      simp only [entryBlock]
      rw [shapeEq_render s₁ s₂ hs 1 (level + 1) (pre ++ toString i ++ "."),
        shapeEq_render r₁ r₂ hr (i + 1) level pre]

/-- The leading whitespace removed by `pyStrip`. -/
def stripLeadPart (s : String) : List Char := s.data.takeWhile pyWhitespace

/-- The trailing whitespace removed by `pyStrip`. -/
def stripTrailPart (s : String) : List Char :=
  ((s.data.dropWhile pyWhitespace).reverse.takeWhile pyWhitespace).reverse

/-- `pyStrip` only cuts whitespace off the two ends: the original string is
the removed leading part, the stripped text, and the removed trailing part,
in order and otherwise unchanged. -/
theorem pyStrip_decomp (s : String) :
    s.data = stripLeadPart s ++ (pyStrip s).data ++ stripTrailPart s := by
  have hsplit : s.data.takeWhile pyWhitespace ++ s.data.dropWhile pyWhitespace = s.data :=
    List.takeWhile_append_dropWhile pyWhitespace s.data
  have h2 : (s.data.dropWhile pyWhitespace).reverse.takeWhile pyWhitespace ++
      (s.data.dropWhile pyWhitespace).reverse.dropWhile pyWhitespace =
      (s.data.dropWhile pyWhitespace).reverse :=
    List.takeWhile_append_dropWhile pyWhitespace (s.data.dropWhile pyWhitespace).reverse
  have h3 : s.data.dropWhile pyWhitespace =
      ((s.data.dropWhile pyWhitespace).reverse.dropWhile pyWhitespace).reverse ++
        ((s.data.dropWhile pyWhitespace).reverse.takeWhile pyWhitespace).reverse := by
    conv_lhs => rw [← List.reverse_reverse (s.data.dropWhile pyWhitespace), ← h2]
    rw [List.reverse_append]
  simp only [stripLeadPart, stripTrailPart, pyStrip]
  conv_lhs => rw [← hsplit, h3]
  rw [List.append_assoc]

/-- Everything `pyStrip` removes at the front is whitespace. -/
theorem stripLeadPart_ws (s : String) : (stripLeadPart s).all pyWhitespace = true :=
  List.all_takeWhile

/-- Everything `pyStrip` removes at the back is whitespace. -/
theorem stripTrailPart_ws (s : String) : (stripTrailPart s).all pyWhitespace = true := by
  simp only [stripTrailPart, List.all_reverse]
  exact List.all_takeWhile

/-- When the stripped input is not a quit token and resolves to a payload
string, the session displays the stripped payload. -/
theorem sessionStep_displayed (catalog : PyVal) (raw s : String)
    (hq : quitTokens.contains (pyLower (pyStrip raw)) = false)
    (hres : get_nested catalog (pyStrip raw) = Except.ok (PyVal.str s)) :
    sessionStep catalog raw = StepOutcome.displayed (pyStrip s) := by
  have hq2 : pyLower (pyStrip raw) ∉ quitTokens := by simpa using hq
  simp [sessionStep, hq2, hres]

/-! Claim theorems. -/

/-- C1: the claim is false on the code and the code contradicts the spec's
clear intent: against the program's own catalog (9 top-level children),
resolving the digit segment `"0"` does not fail with an index error — via
Python's negative indexing (`int("0") - 1 = -1`) it silently returns the
last child, the `"Concurrency Basics"` category — while resolving
`"10"` (child_count + 1) does fail with `IndexError`, which maps to
`IndexOutOfRange`. -/
theorem C1_zero_segment_returns_last_child :
    get_nested SNIPPETS "0" = Except.ok (PyVal.dict []) ∧
      snippetsEntries.length = 9 ∧
      snippetsEntries[8]? = some ("Concurrency Basics", PyVal.dict []) ∧
      get_nested SNIPPETS "10" = Except.error PyErr.indexError ∧
      resErrOf PyErr.indexError = ResolutionError.IndexOutOfRange :=
  ⟨rfl, rfl, rfl, rfl, rfl⟩

/-- C2: the claim is false on the code and the code contradicts the spec's
stated intent: when the user selects the interior node `"1"`
(the `"Command Line Arguments"` category), the session loop does not treat
it as an invalid selection — it reaches `code.strip()` on a dict, raising
an uncaught `AttributeError` that crashes the program. -/
theorem C2_interior_selection_crashes :
    sessionStep SNIPPETS "1" = StepOutcome.crashed PyErr.attributeError ∧
      StepOutcome.crashed PyErr.attributeError ≠ StepOutcome.invalidSelection :=
  ⟨rfl, by decide⟩

/-- C3: rendering an interior node's children at depth `d` with path
prefix `p` emits, for each child in insertion order with 1-based position
`i`, exactly the block `entryBlock d p i name child`: the numbered line
(with a trailing slash and a recursive rendering at depth `d + 1` and
prefix `p ++ toString i ++ "."` for an interior child, without either for
a leaf child), concatenated over all children. -/
theorem C3_render_structure (cs : List (String × PyVal)) (d : Nat) (p : String) :
    print_menuFrom 1 d p cs =
      ((cs.enumFrom 1).map fun e => entryBlock d p e.1 e.2.1 e.2.2).flatten :=
  print_menuFrom_enum cs 1 d p

/-- C4: in a catalog satisfying the invariants (unique, non-digit sibling
names), every leaf reachable from the root is returned by resolving the
dotted path of its 1-based insertion positions, and also by resolving the
dotted path of its full chain of literal display names; both paths resolve
to the identical leaf. -/
theorem C4_resolver_round_trip (es : List (String × PyVal)) (idxs : List Nat)
    (names : List String) (leaf : PyVal) (p₁ p₂ : String)
    (hgood : goodEntries es = true)
    (hr : ReachAt (PyVal.dict es) idxs names leaf)
    (_hleaf : ∃ s, leaf = PyVal.str s)
    (h₁ : List.Forall₂ (fun s n => pyIsdigit s = true ∧ pyIntOfDigits s = n)
      (pySplitDot p₁) idxs)
    (h₂ : pySplitDot p₂ = names) :
    get_nested (PyVal.dict es) p₁ = Except.ok leaf ∧
      get_nested (PyVal.dict es) p₂ = Except.ok leaf := by
  constructor
  · exact reach_num _ _ _ _ hr (by simpa [goodVal] using hgood) _ h₁
  · rw [get_nested, h₂]
    exact reach_name _ _ _ _ hr (by simpa [goodVal] using hgood)

/-- Witness for C4 on the program's catalog: the leaf
`"basic argparse usage"` is returned both by its numeric path `"1.1"` and
by its name path. -/
theorem C4_resolver_round_trip_witness :
    get_nested SNIPPETS "1.1" = Except.ok (PyVal.str payload_basic_argparse_usage) ∧
      get_nested SNIPPETS "Command Line Arguments.basic argparse usage" =
        Except.ok (PyVal.str payload_basic_argparse_usage) := by
  refine C4_resolver_round_trip snippetsEntries [1, 1]
    ["Command Line Arguments", "basic argparse usage"]
    (PyVal.str payload_basic_argparse_usage)
    "1.1" "Command Line Arguments.basic argparse usage"
    (by simp [snippetsEntries, goodEntries, pyIsdigit])
    (ReachAt.step
      (show snippetsEntries[0]? = some ("Command Line Arguments",
        PyVal.dict [("basic argparse usage", PyVal.str payload_basic_argparse_usage),
          ("argparse with subcommands", PyVal.str payload_argparse_with_subcommands)])
        from rfl)
      (ReachAt.step
        (show [("basic argparse usage", PyVal.str payload_basic_argparse_usage),
          ("argparse with subcommands", PyVal.str payload_argparse_with_subcommands)][0]? =
          some ("basic argparse usage", PyVal.str payload_basic_argparse_usage)
          from rfl)
        (ReachAt.refl _)))
    ⟨payload_basic_argparse_usage, rfl⟩
    ?_ rfl
  show List.Forall₂ _ (pySplitDot "1.1") _
  have hsp : pySplitDot "1.1" = ["1", "1"] := rfl
  rw [hsp]
  exact List.Forall₂.cons ⟨rfl, rfl⟩ (List.Forall₂.cons ⟨rfl, rfl⟩ List.Forall₂.nil)

/-- C5: the renderer and the resolver agree on positions: if the child in
1-based position `i + 1` of an interior node is `(k, v)`, then resolving
the digit segment denoting `i + 1` at that node returns exactly `v`, and
the rendering of the node at any depth and prefix consists of the earlier
siblings' blocks, then the block numbered `i + 1` showing name `k` for
that very child `v`, then the later siblings' blocks. -/
theorem C5_position_agreement (es : List (String × PyVal)) (i level : Nat)
    (k s pre : String) (v : PyVal)
    (hget : es[i]? = some (k, v))
    (hs : pyIsdigit s = true)
    (hv : pyIntOfDigits s = i + 1)
    (hsp : pySplitDot s = [s]) :
    get_nested (PyVal.dict es) s = Except.ok v ∧
      print_menuFrom 1 level pre es =
        print_menuFrom 1 level pre (es.take i) ++
          (entryBlock level pre (i + 1) k v ++
            print_menuFrom (i + 2) level pre (es.drop (i + 1))) := by
  have hlen : i < es.length := (List.getElem?_eq_some.mp hget).1
  constructor
  · rw [get_nested, hsp]
    have hmap : (es.map Prod.snd)[i]? = some v := by simp [List.getElem?_map, hget]
    have hidx : ((pyIntOfDigits s : Int) - 1) = (i : Int) := by rw [hv]; omega
    simp only [get_nestedSegs, get_nestedStep, hs, if_pos, hidx]
    rw [pyIndex_nonneg _ i (by simpa using hlen), hmap]
  · have hdrop : es.drop i = (k, v) :: es.drop (i + 1) := by
      have hg : es[i] = (k, v) := by
        obtain ⟨h1, h2⟩ := List.getElem?_eq_some.mp hget
        exact h2
      rw [← List.getElem_cons_drop es i hlen, hg]
    have htake : (es.take i).length = i := by
      simp [List.length_take]
      omega
    conv_lhs => rw [← List.take_append_drop i es, hdrop]
    rw [print_menuFrom_append, print_menuFrom_cons, htake]
    have h1 : 1 + i = i + 1 := by omega
    have h2 : i + 1 + 1 = i + 2 := by omega
    rw [h1, h2]

/-- Witness for C5 on the top level of the program's catalog: position 2
is the `"Flask – Basic Setup"` category, both for the resolver and in the
rendered menu. -/
theorem C5_position_agreement_witness :
    get_nested (PyVal.dict snippetsEntries) "2" =
      Except.ok (PyVal.dict
        [("minimal Flask application", PyVal.str payload_minimal_Flask_application),
          ("Flask with templates (recommended)",
            PyVal.str payload_Flask_with_templates_recommended)]) ∧
      print_menuFrom 1 0 "" snippetsEntries =
        print_menuFrom 1 0 "" (snippetsEntries.take 1) ++
          (entryBlock 0 "" 2 "Flask – Basic Setup"
            (PyVal.dict
              [("minimal Flask application", PyVal.str payload_minimal_Flask_application),
                ("Flask with templates (recommended)",
                  PyVal.str payload_Flask_with_templates_recommended)]) ++
            print_menuFrom 3 0 "" (snippetsEntries.drop 2)) :=
  C5_position_agreement snippetsEntries 1 0 "Flask – Basic Setup" "2" ""
    (PyVal.dict
      [("minimal Flask application", PyVal.str payload_minimal_Flask_application),
        ("Flask with templates (recommended)",
          PyVal.str payload_Flask_with_templates_recommended)])
    rfl rfl rfl rfl

/-- C6: if a path's segment walk reaches a payload string (a leaf) while
at least one segment remains, resolution fails — with `AttributeError` for
a remaining digit segment or `TypeError` for a name segment, both of which
are the spec's `NotContainer` — and returns no node. -/
theorem C6_over_depth (d : PyVal) (p payload : String) (segs : List String)
    (seg : String) (rest : List String)
    (hsplit : pySplitDot p = segs ++ seg :: rest)
    (hwalk : get_nestedSegs d segs = Except.ok (PyVal.str payload)) :
    get_nested d p =
        Except.error (if pyIsdigit seg then PyErr.attributeError else PyErr.typeError) ∧
      resErrOf (if pyIsdigit seg then PyErr.attributeError else PyErr.typeError) =
        ResolutionError.NotContainer := by
  constructor
  · rw [get_nested, hsplit, get_nestedSegs_append, hwalk]
    by_cases h : pyIsdigit seg = true
    · simp [get_nestedSegs, get_nestedStep, h]
    · simp only [Bool.not_eq_true] at h
      simp [get_nestedSegs, get_nestedStep, h]
  · by_cases h : pyIsdigit seg = true
    · simp [h, resErrOf]
    · simp only [Bool.not_eq_true] at h
      simp [h, resErrOf]

/-- Witness for C6 on the program's catalog: `"1.1.1"` descends past the
`"basic argparse usage"` leaf and fails with a `NotContainer`-class
error. -/
theorem C6_over_depth_witness :
    get_nested SNIPPETS "1.1.1" = Except.error PyErr.attributeError ∧
      resErrOf PyErr.attributeError = ResolutionError.NotContainer :=
  C6_over_depth SNIPPETS "1.1.1" payload_basic_argparse_usage ["1", "1"] "1" [] rfl rfl

/-- C7: a successful leaf selection displays exactly the stored payload
with only leading and trailing whitespace removed: the session step shows
`pyStrip payload`, and the original payload is recovered by putting back
the removed all-whitespace margins around the displayed text, so no
interior characters are altered, reordered, or removed. -/
theorem C7_display_is_stripped_payload (catalog : PyVal) (raw s : String)
    (hq : quitTokens.contains (pyLower (pyStrip raw)) = false)
    (hres : get_nested catalog (pyStrip raw) = Except.ok (PyVal.str s)) :
    sessionStep catalog raw = StepOutcome.displayed (pyStrip s) ∧
      s.data = stripLeadPart s ++ (pyStrip s).data ++ stripTrailPart s ∧
      (stripLeadPart s).all pyWhitespace = true ∧
      (stripTrailPart s).all pyWhitespace = true :=
  ⟨sessionStep_displayed catalog raw s hq hres, pyStrip_decomp s,
    stripLeadPart_ws s, stripTrailPart_ws s⟩

/-- Witness for C7: selecting `"1.1"` in the program's catalog displays
the stripped `"basic argparse usage"` payload. -/
theorem C7_display_witness :
    sessionStep SNIPPETS "1.1" =
        StepOutcome.displayed (pyStrip payload_basic_argparse_usage) ∧
      payload_basic_argparse_usage.data =
        stripLeadPart payload_basic_argparse_usage ++
          (pyStrip payload_basic_argparse_usage).data ++
            stripTrailPart payload_basic_argparse_usage ∧
      (stripLeadPart payload_basic_argparse_usage).all pyWhitespace = true ∧
      (stripTrailPart payload_basic_argparse_usage).all pyWhitespace = true :=
  C7_display_is_stripped_payload SNIPPETS "1.1" payload_basic_argparse_usage rfl rfl

/-- C8: menu rendering is a pure, deterministic function of the catalog's
shape (display names and interior/leaf structure): any two catalogs of
equal shape — in particular an unchanged catalog rendered twice in
succession — produce byte-identical line sequences, at every position,
depth and prefix. -/
theorem C8_render_deterministic (es₁ es₂ : List (String × PyVal)) (i level : Nat)
    (pre : String) (h : shapeEqEntries es₁ es₂ = true) :
    print_menuFrom i level pre es₁ = print_menuFrom i level pre es₂ :=
  shapeEq_render es₁ es₂ h i level pre

/-- Witness for C8: two single-leaf catalogs differing only in payload
render identically. -/
theorem C8_render_deterministic_witness :
    print_menuLines [("x", PyVal.str "a")] = print_menuLines [("x", PyVal.str "b")] :=
  C8_render_deterministic [("x", PyVal.str "a")] [("x", PyVal.str "b")] 1 0 ""
    (by simp [shapeEqEntries])

/-- C9: resolution never mutates the catalog and has no other effect: the
state-threaded form of `get_nested` returns the catalog unchanged for
every path, succeeding or failing, its result is exactly `get_nested`'s,
and any node it returns is a node of the original catalog tree (a
non-owning read view, not a modified or fabricated value). -/
theorem C9_resolution_frame (cat : PyVal) (path : String) :
    (resolveST cat path).1 = cat ∧
      (resolveST cat path).2 = get_nested cat path ∧
      ∀ v, get_nested cat path = Except.ok v → SubNode v cat := by
  refine ⟨?_, ?_, ?_⟩
  · rw [resolveST, resolveLoop_eq]
  · rw [resolveST, resolveLoop_eq]
    rfl
  · intro v hv
    exact get_nestedSegs_sub _ _ _ hv

/-- Witness for C9 on the program's catalog and the path `"1.1"`. -/
theorem C9_resolution_frame_witness :
    (resolveST SNIPPETS "1.1").1 = SNIPPETS ∧
      (resolveST SNIPPETS "1.1").2 = get_nested SNIPPETS "1.1" ∧
      SubNode (PyVal.str payload_basic_argparse_usage) SNIPPETS :=
  ⟨(C9_resolution_frame SNIPPETS "1.1").1,
    (C9_resolution_frame SNIPPETS "1.1").2.1,
    (C9_resolution_frame SNIPPETS "1.1").2.2 (PyVal.str payload_basic_argparse_usage) rfl⟩

/-- C10: for a successfully selected leaf, the text offered to the
clipboard equals the text displayed: both are `pyStrip` of the stored
payload, so copying never transmits a string different from what was
shown. -/
theorem C10_clipboard_matches_display (catalog : PyVal) (raw s ans : String)
    (hq : quitTokens.contains (pyLower (pyStrip raw)) = false)
    (hres : get_nested catalog (pyStrip raw) = Except.ok (PyVal.str s))
    (hans : (["n", "no"].contains (pyLower (pyStrip ans))) = false) :
    sessionStep catalog raw = StepOutcome.displayed (pyStrip s) ∧
      clipboardOffer ans true s = some (pyStrip s) := by
  refine ⟨sessionStep_displayed catalog raw s hq hres, ?_⟩
  have hans2 : pyLower (pyStrip ans) ∉ ["n", "no"] := by simpa using hans
  simp [clipboardOffer, hans2]

/-- Witness for C10: selecting `"2.1"` and answering `"y"` to the copy
prompt offers the clipboard exactly the displayed text. -/
theorem C10_clipboard_witness :
    sessionStep SNIPPETS "2.1" =
        StepOutcome.displayed (pyStrip payload_minimal_Flask_application) ∧
      clipboardOffer "y" true payload_minimal_Flask_application =
        some (pyStrip payload_minimal_Flask_application) :=
  C10_clipboard_matches_display SNIPPETS "2.1" payload_minimal_Flask_application "y"
    rfl rfl rfl
